import Mathlib

/-!
# Bug tracker core: shallow embedding and verification

This file embeds the core logic of a MERN bug-tracking server
(`server/src/utils/validation.js`, `server/src/controllers/bugController.js`,
`server/src/middleware/auth.js`, `server/src/models/Bug.js`) in Lean and
proves the specified properties of the status-transition validator, the
access-control checks, the bug-mutation handlers and the statistics
aggregator.

Conventions of the embedding:
* Mongo object ids are modelled as `Nat`; dates as `Nat` timestamps.
* Status, priority and role values are `String`s, exactly as in the source,
  so that unknown values can be expressed.
* Each request handler becomes a pure function from its inputs and the
  stored bug record (`Option Bug`, `none` when the id resolves to nothing)
  to the new stored record together with an `Except` result.  An early
  `return next(new AppError(...))` in the source corresponds to returning
  the error with the store unchanged; the single `findByIdAndUpdate` /
  `save` call corresponds to the point where the new record is written.
* Mongoose's `pre('save')` document middleware runs on `Document.save()`
  (used by `Bug.create`, `addComment`, `toggleWatcher`) but not on
  `findByIdAndUpdate` (used by `updateBug`, `assignBug`); the embedding
  reflects this by applying `preSaveHook` only on the `save` paths.
-/

namespace BugTracker

/-- A comment subdocument of `bugSchema.comments` in `models/Bug.js`:
`{author, content, createdAt}`. -/
structure Comment where
  author : Nat
  content : String
  createdAt : Nat
  deriving Repr, DecidableEq

/-- The bug record of `models/Bug.js`, restricted to the fields the verified
properties mention.  `status`, `priority` keep their string representation;
`watchers` is the stored array of user ids (the schema does not enforce
uniqueness, the controller does). -/
structure Bug where
  title : String
  description : String
  status : String
  priority : String
  reporter : Nat
  assignee : Option Nat
  comments : List Comment
  watchers : List Nat
  createdAt : Nat
  resolvedAt : Option Nat
  closedAt : Option Nat
  deriving Repr, DecidableEq

/-- A user as the engine sees it: the verified identity `{id, role}` from
`models/User.js` (`role ∈ {reporter, developer, admin}` for well-formed
records, but kept as a string as in the source). -/
structure User where
  id : Nat
  role : String
  deriving Repr, DecidableEq

/-! ## Status transition validator (`utils/validation.js`) -/

/-- The `allowedTransitions` object literal inside `validateStatusTransition`:
a partial map from a current status to the list of statuses reachable from
it.  `none` models JavaScript's `undefined` for an unknown key. -/
def allowedTransitions (currentStatus : String) : Option (List String) :=
  if currentStatus = "open" then some ["in-progress", "closed"]
  else if currentStatus = "in-progress" then some ["testing", "open", "closed"]
  else if currentStatus = "testing" then some ["resolved", "in-progress", "open"]
  else if currentStatus = "resolved" then some ["closed", "open"]
  else if currentStatus = "closed" then some ["open"]
  else none

/-- `validateStatusTransition(currentStatus, newStatus)` from
`utils/validation.js`:
`allowedTransitions[currentStatus]?.includes(newStatus) || false`. -/
def validateStatusTransition (currentStatus newStatus : String) : Bool :=
  match allowedTransitions currentStatus with
  | some targets => targets.contains newStatus
  | none => false

/-- The eleven directed edges of the legal-transition graph as the
specification lists them. -/
def legalTransitionEdges : List (String × String) :=
  [("open", "in-progress"), ("open", "closed"),
   ("in-progress", "testing"), ("in-progress", "open"), ("in-progress", "closed"),
   ("testing", "resolved"), ("testing", "in-progress"), ("testing", "open"),
   ("resolved", "closed"), ("resolved", "open"),
   ("closed", "open")]

/-- C1: `validateStatusTransition` returns `true` exactly on the listed
edges of the transition graph: every other pair — including every
`from = to` pair and every pair with an unknown status on either side —
yields `false`. -/
theorem validateStatusTransition_iff_legal_edge (f t : String) :
    validateStatusTransition f t = true ↔ (f, t) ∈ legalTransitionEdges := by
  unfold validateStatusTransition allowedTransitions
  by_cases h1 : f = "open"
  · subst h1; simp [legalTransitionEdges]
  by_cases h2 : f = "in-progress"
  · subst h2; simp [legalTransitionEdges]
  by_cases h3 : f = "testing"
  · subst h3; simp [legalTransitionEdges]
  by_cases h4 : f = "resolved"
  · subst h4; simp [legalTransitionEdges]
  by_cases h5 : f = "closed"
  · subst h5; simp [legalTransitionEdges]
  · simp [h1, h2, h3, h4, h5, legalTransitionEdges]

/-! ## Error kinds (section 7 of the design: HTTP codes in the source) -/

/-- The error kinds the handlers surface: 404 NotFound, 403 Forbidden,
400 invalid status transition, 400 invalid assignee role, 400 missing
comment content. -/
inductive BugError where
  | notFound
  | forbidden
  | invalidTransition (currentStatus newStatus : String)
  | invalidAssignee
  | validationFailed
  deriving Repr, DecidableEq

/-! ## The pre-save document middleware (`models/Bug.js`) -/

/-- The `bugSchema.pre('save')` hook restricted to the embedded fields:
when the status path was modified in this save, set `resolvedAt`
(resp. `closedAt`) to the current time if the status is now `resolved`
(resp. `closed`) and the timestamp is not already set.  Mongoose runs this
on `Document.save()` only, never on `findByIdAndUpdate`. -/
def preSaveHook (statusModified : Bool) (now : Nat) (b : Bug) : Bug :=
  if statusModified then
    let b1 := if b.status = "resolved" ∧ b.resolvedAt = none then
                { b with resolvedAt := some now } else b
    if b1.status = "closed" ∧ b1.closedAt = none then
      { b1 with closedAt := some now } else b1
  else b

/-- A save with the status path unmodified leaves the record unchanged. -/
theorem preSaveHook_false (now : Nat) (b : Bug) : preSaveHook false now b = b := rfl

/-! ## updateBug (`controllers/bugController.js`) -/

/-- The update document (`req.body` of a PUT /bugs/:id request), restricted
to the embedded fields.  Every field is optional: an absent field is not
part of the update.  The `reporter`, `createdAt` and `comments` entries
model a caller attempting to write those protected fields. -/
structure Patch where
  title : Option String
  description : Option String
  status : Option String
  priority : Option String
  assignee : Option (Option Nat)
  reporter : Option Nat
  createdAt : Option Nat
  comments : Option (List Comment)
  deriving Repr, DecidableEq

/-- A patch with no fields set. -/
def emptyPatch : Patch := ⟨none, none, none, none, none, none, none, none⟩

/-- The three `delete updates.*` statements at the top of `updateBug`:
`reporter`, `createdAt` and `comments` are removed from the update
document before anything else happens. -/
def stripPatch (p : Patch) : Patch :=
  { p with reporter := none, createdAt := none, comments := none }

/-- Semantics of `Bug.findByIdAndUpdate(id, updates)` on a found document:
each field present in the update document overwrites the stored field,
absent fields are untouched, and no `save` middleware runs. -/
def applyPatch (p : Patch) (b : Bug) : Bug :=
  { b with
    title := p.title.getD b.title
    description := p.description.getD b.description
    status := p.status.getD b.status
    priority := p.priority.getD b.priority
    assignee := p.assignee.getD b.assignee
    reporter := p.reporter.getD b.reporter
    createdAt := p.createdAt.getD b.createdAt
    comments := p.comments.getD b.comments }

/-- The `updateBug` handler: strip the protected fields; if the stripped
update still carries a status, load the bug (404 when absent) and reject
the update when `validateStatusTransition` refuses the edge; otherwise
apply the whole update via `findByIdAndUpdate` (404 when absent).  The
first component is the stored record after the call, the second the
response. -/
def updateBug (p : Patch) (store : Option Bug) :
    Option Bug × Except BugError Bug :=
  let updates := stripPatch p
  match updates.status with
  | some s =>
    match store with
    | none => (store, .error .notFound)
    | some b =>
      if validateStatusTransition b.status s then
        match store with
        | none => (store, .error .notFound)
        | some b2 =>
          let b' := applyPatch updates b2
          (some b', .ok b')
      else (store, .error (.invalidTransition b.status s))
  | none =>
    match store with
    | none => (store, .error .notFound)
    | some b =>
      let b' := applyPatch updates b
      (some b', .ok b')

/-! ## Access control (`middleware/auth.js`) and deleteBug -/

/-- The `canModifyResource` middleware specialised to the bug routes (the
`req.route.path.includes('/bugs')` branch): an admin passes without the
bug even being loaded; any other caller must be the bug's reporter or its
assignee.  A returned `ok` models `next()` being called. -/
def canModifyResource (actor : User) (store : Option Bug) :
    Except BugError Unit :=
  if actor.role = "admin" then .ok ()
  else
    match store with
    | none => .error .notFound
    | some bug =>
      if bug.reporter = actor.id ∨ bug.assignee = some actor.id then .ok ()
      else .error .forbidden

/-- The `authorize(...roles)` middleware: the caller's role must be one of
the listed roles. -/
def authorize (roles : List String) (actor : User) : Except BugError Unit :=
  if roles.contains actor.role then .ok () else .error .forbidden

/-- The `deleteBug` handler: load the bug (404 when absent); only the
reporter or an admin may delete; on success the record is removed. -/
def deleteBug (actor : User) (store : Option Bug) :
    Option Bug × Except BugError Unit :=
  match store with
  | none => (store, .error .notFound)
  | some bug =>
    if bug.reporter ≠ actor.id ∧ actor.role ≠ "admin" then
      (store, .error .forbidden)
    else (none, .ok ())

/-- PUT /bugs/:id as wired in `routes/bugRoutes.js`:
`canModifyResource('id')` runs before the `updateBug` handler. -/
def updateBugPipeline (actor : User) (p : Patch) (store : Option Bug) :
    Option Bug × Except BugError Bug :=
  match canModifyResource actor store with
  | .error e => (store, .error e)
  | .ok _ => updateBug p store

/-- DELETE /bugs/:id as wired in `routes/bugRoutes.js`:
`canModifyResource('id')` runs before the `deleteBug` handler. -/
def deleteBugPipeline (actor : User) (store : Option Bug) :
    Option Bug × Except BugError Unit :=
  match canModifyResource actor store with
  | .error e => (store, .error e)
  | .ok _ => deleteBug actor store

/-! ## assignBug -/

/-- Lookup of `User.findById(assigneeId)` over the user collection. -/
def findUser (users : List User) (uid : Nat) : Option User :=
  users.find? (fun u => u.id = uid)

/-- The `assignBug` handler: the target user must exist (404), must have
role `developer` or `admin` (400 `invalidAssignee` otherwise), and only
then is the bug's `assignee` field written (404 when the bug is absent). -/
def assignBug (users : List User) (assigneeId : Nat) (store : Option Bug) :
    Option Bug × Except BugError Bug :=
  match findUser users assigneeId with
  | none => (store, .error .notFound)
  | some assignee =>
    if assignee.role = "developer" ∨ assignee.role = "admin" then
      match store with
      | none => (store, .error .notFound)
      | some b =>
        let b' := { b with assignee := some assigneeId }
        (some b', .ok b')
    else (store, .error .invalidAssignee)

/-! ## addComment -/

/-- JavaScript's `String.prototype.trim()`: remove leading and trailing
whitespace, embedded over the string's character list so that it reduces
inside the kernel. -/
def jsTrim (s : String) : String :=
  ⟨((s.data.dropWhile Char.isWhitespace).reverse.dropWhile
      Char.isWhitespace).reverse⟩

/-- The `addComment` handler: reject content that is empty after trimming
(400); otherwise push `{author: actor, content: content.trim()}` onto the
comment list and `save()` (which runs the pre-save hook with the status
path unmodified).  The response carries the newly appended comment. -/
def addComment (actor : User) (content : String) (now : Nat)
    (store : Option Bug) : Option Bug × Except BugError Comment :=
  if jsTrim content = "" then (store, .error .validationFailed)
  else
    match store with
    | none => (store, .error .notFound)
    | some bug =>
      let c : Comment := ⟨actor.id, jsTrim content, now⟩
      let b' := preSaveHook false now
        { bug with comments := bug.comments ++ [c] }
      (some b', .ok c)

/-! ## toggleWatcher -/

/-- The response payload of `toggleWatcher`: the resulting watching state
and the watcher count after the call. -/
structure WatchResult where
  isWatching : Bool
  watchersCount : Nat
  deriving Repr, DecidableEq

/-- The `toggleWatcher` handler: if the caller's id is already among the
watchers, remove every occurrence of it; otherwise append it; then
`save()` (pre-save hook, status unmodified).  The response reports the
negated previous watching state and the new watcher count. -/
def toggleWatcher (actor : User) (now : Nat) (store : Option Bug) :
    Option Bug × Except BugError WatchResult :=
  match store with
  | none => (store, .error .notFound)
  | some bug =>
    let isWatching := bug.watchers.contains actor.id
    let b1 :=
      if isWatching then
        { bug with watchers := bug.watchers.filter (fun w => w != actor.id) }
      else
        { bug with watchers := bug.watchers ++ [actor.id] }
    let b' := preSaveHook false now b1
    (some b', .ok ⟨!isWatching, b'.watchers.length⟩)

/-! ## createBug -/

/-- The request body of `createBug` restricted to the embedded fields:
the fields the controller destructures, plus `bodyReporter` and
`bodyStatus` modelling `reporter`/`status` entries a caller might supply
(the destructuring never reads them). -/
structure CreateBody where
  title : String
  description : String
  priority : Option String
  bodyReporter : Option Nat
  bodyStatus : Option String
  deriving Repr, DecidableEq

/-- The `createBug` handler: `Bug.create` with the destructured fields and
`reporter: req.user._id`.  The schema supplies `status: 'open'` and
`priority: 'medium'` defaults; `create` saves the document, so the
pre-save hook runs with every set path (status included) counting as
modified. -/
def createBug (actor : User) (body : CreateBody) (now : Nat) : Bug :=
  preSaveHook true now
    { title := body.title
      description := body.description
      status := "open"
      priority := body.priority.getD "medium"
      reporter := actor.id
      assignee := none
      comments := []
      watchers := []
      createdAt := now
      resolvedAt := none
      closedAt := none }

/-! ## getStatistics (`models/Bug.js`) -/

/-- The single `$group` result of `bugSchema.statics.getStatistics` (the
source's `open` field is `openCount` here, `open` being a Lean keyword). -/
structure Stats where
  total : Nat
  openCount : Nat
  inProgress : Nat
  testing : Nat
  resolved : Nat
  closed : Nat
  critical : Nat
  high : Nat
  medium : Nat
  low : Nat
  deriving Repr, DecidableEq

/-- The zero accumulator: also the `stats[0] || {...zeros}` fallback the
source returns over an empty collection. -/
def statsInit : Stats := ⟨0, 0, 0, 0, 0, 0, 0, 0, 0, 0⟩

/-- One document's contribution to the `$group` stage: `$sum: 1` for
`total` and `$sum: {$cond: [{$eq: ...}, 1, 0]}` for each status and
priority bucket. -/
def statsStep (acc : Stats) (b : Bug) : Stats :=
  { total := acc.total + 1
    openCount := acc.openCount + (if b.status = "open" then 1 else 0)
    inProgress := acc.inProgress + (if b.status = "in-progress" then 1 else 0)
    testing := acc.testing + (if b.status = "testing" then 1 else 0)
    resolved := acc.resolved + (if b.status = "resolved" then 1 else 0)
    closed := acc.closed + (if b.status = "closed" then 1 else 0)
    critical := acc.critical + (if b.priority = "critical" then 1 else 0)
    high := acc.high + (if b.priority = "high" then 1 else 0)
    medium := acc.medium + (if b.priority = "medium" then 1 else 0)
    low := acc.low + (if b.priority = "low" then 1 else 0) }

/-- The `getStatistics` aggregation: a single pass over the collection. -/
def getStatistics (bugs : List Bug) : Stats :=
  bugs.foldl statsStep statsInit

/-! ## Sample records used by concrete witnesses -/

/-- A freshly reported bug: reporter 1, no assignee, no comments. -/
def openBug : Bug :=
  ⟨"Login fails", "Cannot log in", "open", "high", 1, none, [], [], 0, none, none⟩

/-- A bug in testing, not yet resolved, `resolvedAt` unset. -/
def testingBug : Bug :=
  ⟨"Crash on save", "Crashes", "testing", "medium", 1, none, [], [], 0, none, none⟩

/-- A bug reported by user 1 and assigned to user 2. -/
def assignedBug : Bug :=
  ⟨"UI glitch", "Misaligned", "open", "low", 1, some 2, [], [], 0, none, none⟩

/-- A bug that already carries one comment, by user 8. -/
def commentBug : Bug :=
  ⟨"Typo", "Spelling", "open", "low", 1, none, [⟨8, "first", 1⟩], [], 0, none, none⟩

/-- A bug watched by user 3 only. -/
def watchedBug : Bug :=
  ⟨"Flaky test", "Sometimes red", "open", "low", 1, none, [], [3], 0, none, none⟩

/-- The watcher state after user 5 toggles once on `watchedBug`. -/
def watchedOnce : Bug := { watchedBug with watchers := [3, 5] }

/-- The watcher state after user 5 toggles a second time. -/
def watchedTwice : Bug := { watchedBug with watchers := [3] }

/-- An update document that changes the title, performs a legal status
move and attempts to overwrite the protected fields. -/
def strippingPatch : Patch :=
  { emptyPatch with
    title := some "New title"
    status := some "in-progress"
    reporter := some 99
    createdAt := some 777
    comments := some [] }

/-- A user with the `reporter` role. -/
def repUser : User := ⟨3, "reporter"⟩

/-! ## C4: createBug forces reporter and initial status -/

/-- C4: every bug stored by `createBug` has `reporter = actor.id` and
status `open`, and the stored record does not depend on any `reporter` or
`status` value supplied in the request body. -/
theorem createBug_forces_reporter_and_open_status
    (actor : User) (body : CreateBody) (now : Nat) :
    (createBug actor body now).reporter = actor.id
  ∧ (createBug actor body now).status = "open"
  ∧ (∀ r s, createBug actor
        { body with bodyReporter := r, bodyStatus := s } now
        = createBug actor body now) := by
  refine ⟨?_, ?_, ?_⟩ <;> simp [createBug, preSaveHook]

/-! ## C2: updateBug rejects illegal status transitions atomically -/

/-- C2: when the patch carries a status the transition validator rejects
from the stored bug's current status, `updateBug` returns the
invalid-transition error and the stored record — every field of it — is
exactly what it was before the call. -/
theorem updateBug_rejects_illegal_transition (p : Patch) (b : Bug) (s : String)
    (hs : p.status = some s)
    (hbad : validateStatusTransition b.status s = false) :
    updateBug p (some b)
      = (some b, Except.error (BugError.invalidTransition b.status s)) := by
  simp [updateBug, stripPatch, hs, hbad]

theorem updateBug_rejects_illegal_transition_witness :
    updateBug { emptyPatch with status := some "resolved" } (some openBug)
      = (some openBug, Except.error (BugError.invalidTransition "open" "resolved")) :=
  updateBug_rejects_illegal_transition _ openBug "resolved" rfl (by decide)

/-! ## C5: resolvedAt across the updateBug path -/

/-- C5 (code bug): moving a bug from `testing` to `resolved` through
`updateBug` stores status `resolved` with `resolvedAt` still unset,
because `findByIdAndUpdate` never runs the pre-save hook; the hook itself
(third conjunct) would have set the timestamp on a save-path status
change, which is the documented intent. -/
theorem updateBug_resolved_skips_resolvedAt (now : Nat) :
    updateBug { emptyPatch with status := some "resolved" } (some testingBug)
      = (some { testingBug with status := "resolved" },
         Except.ok { testingBug with status := "resolved" })
  ∧ ({ testingBug with status := "resolved" } : Bug).resolvedAt = none
  ∧ (preSaveHook true now { testingBug with status := "resolved" }).resolvedAt
      = some now := by
  refine ⟨rfl, rfl, ?_⟩
  simp [preSaveHook, testingBug]

/-! ## C6: updateBug strips the protected fields and applies the rest -/

/-- C6: on a successful update (no status in the patch, or a legal
transition), the stored bug is the patch applied after stripping, so its
reporter, creation timestamp and comment list are unchanged while the
remaining patch fields take their patched values. -/
theorem updateBug_strips_protected_fields (p : Patch) (b : Bug)
    (hstat : p.status = none
      ∨ ∃ s, p.status = some s ∧ validateStatusTransition b.status s = true) :
    updateBug p (some b)
      = (some (applyPatch (stripPatch p) b), Except.ok (applyPatch (stripPatch p) b))
  ∧ (applyPatch (stripPatch p) b).reporter = b.reporter
  ∧ (applyPatch (stripPatch p) b).createdAt = b.createdAt
  ∧ (applyPatch (stripPatch p) b).comments = b.comments
  ∧ (applyPatch (stripPatch p) b).title = p.title.getD b.title
  ∧ (applyPatch (stripPatch p) b).description = p.description.getD b.description
  ∧ (applyPatch (stripPatch p) b).priority = p.priority.getD b.priority
  ∧ (applyPatch (stripPatch p) b).assignee = p.assignee.getD b.assignee
  ∧ (applyPatch (stripPatch p) b).status = p.status.getD b.status := by
  refine ⟨?_, ?_, ?_, ?_, ?_, ?_, ?_, ?_, ?_⟩
  · rcases hstat with h | ⟨s, hs, hok⟩
    · simp [updateBug, stripPatch, h]
    · simp [updateBug, stripPatch, hs, hok]
  all_goals simp [applyPatch, stripPatch]

theorem updateBug_strips_protected_fields_witness :
    (applyPatch (stripPatch strippingPatch) openBug).reporter = openBug.reporter :=
  (updateBug_strips_protected_fields strippingPatch openBug
    (Or.inr ⟨"in-progress", rfl, by decide⟩)).2.1

/-! ## C3: non-admin update and delete permissions -/

/-- C3: for a non-admin actor, the update pipeline rejects with
`forbidden` (store untouched) whenever the actor is neither the bug's
reporter nor its assignee, and the delete pipeline succeeds exactly for
the reporter — an assignee who is not the reporter is still rejected with
`forbidden` and the bug survives. -/
theorem nonadmin_update_delete_permission (actor : User) (p : Patch) (b : Bug)
    (hrole : actor.role ≠ "admin") :
    (b.reporter ≠ actor.id → b.assignee ≠ some actor.id →
        updateBugPipeline actor p (some b)
          = (some b, Except.error BugError.forbidden))
  ∧ (b.reporter = actor.id →
        deleteBugPipeline actor (some b) = (none, Except.ok ()))
  ∧ (b.reporter ≠ actor.id →
        deleteBugPipeline actor (some b)
          = (some b, Except.error BugError.forbidden)) := by
  refine ⟨?_, ?_, ?_⟩
  · intro h1 h2
    simp [updateBugPipeline, canModifyResource, hrole, h1, h2]
  · intro h1
    simp [deleteBugPipeline, canModifyResource, deleteBug, hrole, h1]
  · intro h1
    by_cases h2 : b.assignee = some actor.id
    · simp [deleteBugPipeline, canModifyResource, deleteBug, hrole, h1, h2]
    · simp [deleteBugPipeline, canModifyResource, deleteBug, hrole, h1, h2]

theorem nonadmin_update_delete_permission_witness :
    deleteBugPipeline ⟨2, "developer"⟩ (some assignedBug)
      = (some assignedBug, Except.error BugError.forbidden) :=
  (nonadmin_update_delete_permission ⟨2, "developer"⟩ emptyPatch assignedBug
    (by decide)).2.2 (by decide)

/-! ## C7: assignBug checks the target assignee -/

/-- C7: `assignBug` fails with `notFound` when the target user does not
exist and with `invalidAssignee` when the target's role is `reporter`
(store untouched in both cases); it succeeds — writing exactly the
assignee field — when the target's role is `developer` or `admin`, and
every success implies such a target. -/
theorem assignBug_assignee_role_check (users : List User) (aid : Nat) (b : Bug) :
    (findUser users aid = none →
        assignBug users aid (some b) = (some b, Except.error BugError.notFound))
  ∧ (∀ u, findUser users aid = some u → u.role = "reporter" →
        assignBug users aid (some b)
          = (some b, Except.error BugError.invalidAssignee))
  ∧ (∀ u, findUser users aid = some u →
        (u.role = "developer" ∨ u.role = "admin") →
        assignBug users aid (some b)
          = (some { b with assignee := some aid },
             Except.ok { b with assignee := some aid }))
  ∧ (∀ b', (assignBug users aid (some b)).2 = Except.ok b' →
        ∃ u, findUser users aid = some u
          ∧ (u.role = "developer" ∨ u.role = "admin")) := by
  refine ⟨?_, ?_, ?_, ?_⟩
  · intro h
    simp [assignBug, h]
  · intro u hu hr
    simp [assignBug, hu, hr]
  · intro u hu hrole
    simp [assignBug, hu, hrole]
  · intro b' h
    cases hfind : findUser users aid with
    | none => simp [assignBug, hfind] at h
    | some u =>
      by_cases hrole : u.role = "developer" ∨ u.role = "admin"
      · exact ⟨u, rfl, hrole⟩
      · simp [assignBug, hfind, hrole] at h

theorem assignBug_assignee_role_check_witness :
    assignBug [repUser] 3 (some openBug)
      = (some openBug, Except.error BugError.invalidAssignee) :=
  (assignBug_assignee_role_check [repUser] 3 openBug).2.1 repUser rfl rfl

/-! ## C10: addComment trims and appends -/

/-- C10: when the comment content is non-empty after trimming, the stored
and returned comment carries the trimmed content and the acting user as
author, and it is appended after the existing comments, which are left
exactly as they were. -/
theorem addComment_trims_and_appends (actor : User) (content : String)
    (now : Nat) (b : Bug) (h : ¬ jsTrim content = "") :
    addComment actor content now (some b)
      = (some { b with
            comments := b.comments ++ [(⟨actor.id, jsTrim content, now⟩ : Comment)] },
         Except.ok (⟨actor.id, jsTrim content, now⟩ : Comment))
  ∧ (b.comments ++ [(⟨actor.id, jsTrim content, now⟩ : Comment)]).take
      b.comments.length = b.comments := by
  constructor
  · simp [addComment, h, preSaveHook]
  · exact List.take_left _ _

theorem addComment_trims_and_appends_witness :
    addComment ⟨4, "reporter"⟩ "  hi  " 9 (some commentBug)
      = (some { commentBug with
            comments := commentBug.comments
              ++ [(⟨4, jsTrim "  hi  ", 9⟩ : Comment)] },
         Except.ok (⟨4, jsTrim "  hi  ", 9⟩ : Comment))
  ∧ (commentBug.comments ++ [(⟨4, jsTrim "  hi  ", 9⟩ : Comment)]).take
      commentBug.comments.length = commentBug.comments :=
  addComment_trims_and_appends ⟨4, "reporter"⟩ "  hi  " 9 commentBug (by decide)

/-! ## C8: toggleWatcher is an idempotent-free toggle -/

/-- C8: two successive `toggleWatcher` calls by the same actor restore the
watcher set (same members); the second call reports the negation of the
first; toggling preserves freedom from duplicates; and every call reports
the resulting watching state and the stored watcher count. -/
theorem toggleWatcher_toggle_pair (u : User) (now : Nat) (b b1 b2 : Bug)
    (r1 r2 : WatchResult)
    (h1 : toggleWatcher u now (some b) = (some b1, Except.ok r1))
    (h2 : toggleWatcher u now (some b1) = (some b2, Except.ok r2)) :
    (∀ x, x ∈ b2.watchers ↔ x ∈ b.watchers)
  ∧ r2.isWatching = !r1.isWatching
  ∧ (b.watchers.Nodup → b1.watchers.Nodup ∧ b2.watchers.Nodup)
  ∧ r1.isWatching = b1.watchers.contains u.id
  ∧ r1.watchersCount = b1.watchers.length
  ∧ r2.watchersCount = b2.watchers.length := by
  by_cases hw : u.id ∈ b.watchers
  · have hcb : b.watchers.contains u.id = true := by simpa using hw
    simp only [toggleWatcher, preSaveHook_false, hcb, ite_true, ite_false,
      Bool.not_true, Prod.mk.injEq, Option.some.injEq,
      Except.ok.injEq] at h1
    obtain ⟨hb1, hr1⟩ := h1
    subst hb1
    subst hr1
    have hcb1 : (b.watchers.filter (fun w => w != u.id)).contains u.id = false := by
      simp
    simp only [toggleWatcher, preSaveHook_false, hcb1, Bool.false_eq_true,
      ite_true, ite_false, Bool.not_false, Prod.mk.injEq,
      Option.some.injEq, Except.ok.injEq] at h2
    obtain ⟨hb2, hr2⟩ := h2
    subst hb2
    subst hr2
    refine ⟨?_, rfl, ?_, hcb1.symm, rfl, rfl⟩
    · intro x
      simp only [List.mem_append, List.mem_filter, bne_iff_ne,
        List.mem_singleton]
      constructor
      · rintro (⟨hx, _⟩ | rfl)
        · exact hx
        · exact hw
      · intro hx
        by_cases hxu : x = u.id
        · exact Or.inr hxu
        · exact Or.inl ⟨hx, hxu⟩
    · intro hnd
      refine ⟨hnd.filter _, ?_⟩
      refine List.nodup_append.mpr ⟨hnd.filter _, List.nodup_singleton _, ?_⟩
      intro a ha hmem
      simp only [List.mem_singleton] at hmem
      simp only [List.mem_filter, bne_iff_ne] at ha
      exact ha.2 hmem
  · have hcb : b.watchers.contains u.id = false := by simpa using hw
    simp only [toggleWatcher, preSaveHook_false, hcb, Bool.false_eq_true,
      ite_true, ite_false, Bool.not_false, Prod.mk.injEq,
      Option.some.injEq, Except.ok.injEq] at h1
    obtain ⟨hb1, hr1⟩ := h1
    subst hb1
    subst hr1
    have hcb1 : (b.watchers ++ [u.id]).contains u.id = true := by simp
    simp only [toggleWatcher, preSaveHook_false, hcb1, ite_true, ite_false,
      Bool.not_true, Prod.mk.injEq, Option.some.injEq, Except.ok.injEq] at h2
    obtain ⟨hb2, hr2⟩ := h2
    subst hb2
    subst hr2
    have hfilt : (b.watchers ++ [u.id]).filter (fun w => w != u.id)
        = b.watchers := by
      rw [List.filter_append]
      have hself : b.watchers.filter (fun w => w != u.id) = b.watchers :=
        List.filter_eq_self.mpr
          (fun a ha => by simp [bne_iff_ne]; rintro rfl; exact hw ha)
      simp [hself]
    refine ⟨?_, rfl, ?_, hcb1.symm, rfl, rfl⟩
    · intro x
      rw [hfilt]
    · intro hnd
      constructor
      · refine List.nodup_append.mpr ⟨hnd, List.nodup_singleton _, ?_⟩
        intro a ha hmem
        simp only [List.mem_singleton] at hmem
        exact hw (hmem ▸ ha)
      · rw [hfilt]
        exact hnd

theorem toggleWatcher_toggle_pair_witness :
    (∀ x, x ∈ watchedTwice.watchers ↔ x ∈ watchedBug.watchers)
  ∧ (WatchResult.mk false 1).isWatching = !(WatchResult.mk true 2).isWatching
  ∧ (watchedBug.watchers.Nodup →
        watchedOnce.watchers.Nodup ∧ watchedTwice.watchers.Nodup)
  ∧ (WatchResult.mk true 2).isWatching = watchedOnce.watchers.contains 5
  ∧ (WatchResult.mk true 2).watchersCount = watchedOnce.watchers.length
  ∧ (WatchResult.mk false 1).watchersCount = watchedTwice.watchers.length :=
  toggleWatcher_toggle_pair ⟨5, "developer"⟩ 0 watchedBug watchedOnce
    watchedTwice ⟨true, 2⟩ ⟨false, 1⟩ (by rfl) (by rfl)

/-! ## C9: getStatistics counts -/

/-- A bug record carrying a given status, priority `low`. -/
def sampleStatusBug (st : String) : Bug :=
  ⟨"B", "D", st, "low", 1, none, [], [], 0, none, none⟩

/-- The five-bug collection of the specification example: statuses
`open, open, in-progress, resolved, closed`. -/
def sampleFiveBugs : List Bug :=
  [sampleStatusBug "open", sampleStatusBug "open",
   sampleStatusBug "in-progress", sampleStatusBug "resolved",
   sampleStatusBug "closed"]

/-- Folding `statsStep` from any accumulator adds the collection's length
to `total` and the matching occurrence count to every bucket. -/
theorem statsStep_foldl_spec (bugs : List Bug) (acc : Stats) :
    (bugs.foldl statsStep acc).total = acc.total + bugs.length
  ∧ (bugs.foldl statsStep acc).openCount
      = acc.openCount + bugs.countP (fun b => b.status == "open")
  ∧ (bugs.foldl statsStep acc).inProgress
      = acc.inProgress + bugs.countP (fun b => b.status == "in-progress")
  ∧ (bugs.foldl statsStep acc).testing
      = acc.testing + bugs.countP (fun b => b.status == "testing")
  ∧ (bugs.foldl statsStep acc).resolved
      = acc.resolved + bugs.countP (fun b => b.status == "resolved")
  ∧ (bugs.foldl statsStep acc).closed
      = acc.closed + bugs.countP (fun b => b.status == "closed")
  ∧ (bugs.foldl statsStep acc).critical
      = acc.critical + bugs.countP (fun b => b.priority == "critical")
  ∧ (bugs.foldl statsStep acc).high
      = acc.high + bugs.countP (fun b => b.priority == "high")
  ∧ (bugs.foldl statsStep acc).medium
      = acc.medium + bugs.countP (fun b => b.priority == "medium")
  ∧ (bugs.foldl statsStep acc).low
      = acc.low + bugs.countP (fun b => b.priority == "low") := by
  induction bugs generalizing acc with
  | nil => simp
  | cons b bs ih =>
    obtain ⟨i1, i2, i3, i4, i5, i6, i7, i8, i9, i10⟩ := ih (statsStep acc b)
    refine ⟨?_, ?_, ?_, ?_, ?_, ?_, ?_, ?_, ?_, ?_⟩
    · rw [List.foldl_cons, i1]
      simp only [statsStep, List.length_cons]
      omega
    · rw [List.foldl_cons, i2]
      simp only [statsStep, List.countP_cons]
      by_cases hb : b.status = "open" <;> simp [hb] <;> omega
    · rw [List.foldl_cons, i3]
      simp only [statsStep, List.countP_cons]
      by_cases hb : b.status = "in-progress" <;> simp [hb] <;> omega
    · rw [List.foldl_cons, i4]
      simp only [statsStep, List.countP_cons]
      by_cases hb : b.status = "testing" <;> simp [hb] <;> omega
    · rw [List.foldl_cons, i5]
      simp only [statsStep, List.countP_cons]
      by_cases hb : b.status = "resolved" <;> simp [hb] <;> omega
    · rw [List.foldl_cons, i6]
      simp only [statsStep, List.countP_cons]
      by_cases hb : b.status = "closed" <;> simp [hb] <;> omega
    · rw [List.foldl_cons, i7]
      simp only [statsStep, List.countP_cons]
      by_cases hb : b.priority = "critical" <;> simp [hb] <;> omega
    · rw [List.foldl_cons, i8]
      simp only [statsStep, List.countP_cons]
      by_cases hb : b.priority = "high" <;> simp [hb] <;> omega
    · rw [List.foldl_cons, i9]
      simp only [statsStep, List.countP_cons]
      by_cases hb : b.priority = "medium" <;> simp [hb] <;> omega
    · rw [List.foldl_cons, i10]
      simp only [statsStep, List.countP_cons]
      by_cases hb : b.priority = "low" <;> simp [hb] <;> omega

/-- C9: `getStatistics` returns `total` equal to the number of bugs and a
per-status / per-priority count equal to the number of bugs in that
bucket; on the specification's five-bug example it yields
`total=5, open=2, inProgress=1, resolved=1, closed=1`, and over an empty
collection every count is 0. -/
theorem getStatistics_counts (bugs : List Bug) :
    (getStatistics bugs).total = bugs.length
  ∧ (getStatistics bugs).openCount = bugs.countP (fun b => b.status == "open")
  ∧ (getStatistics bugs).inProgress
      = bugs.countP (fun b => b.status == "in-progress")
  ∧ (getStatistics bugs).testing = bugs.countP (fun b => b.status == "testing")
  ∧ (getStatistics bugs).resolved = bugs.countP (fun b => b.status == "resolved")
  ∧ (getStatistics bugs).closed = bugs.countP (fun b => b.status == "closed")
  ∧ (getStatistics bugs).critical
      = bugs.countP (fun b => b.priority == "critical")
  ∧ (getStatistics bugs).high = bugs.countP (fun b => b.priority == "high")
  ∧ (getStatistics bugs).medium = bugs.countP (fun b => b.priority == "medium")
  ∧ (getStatistics bugs).low = bugs.countP (fun b => b.priority == "low")
  ∧ getStatistics [] = ⟨0, 0, 0, 0, 0, 0, 0, 0, 0, 0⟩
  ∧ getStatistics sampleFiveBugs = ⟨5, 2, 1, 0, 1, 1, 0, 0, 0, 5⟩ := by
  obtain ⟨h1, h2, h3, h4, h5, h6, h7, h8, h9, h10⟩ :=
    statsStep_foldl_spec bugs statsInit
  exact ⟨by simpa [getStatistics, statsInit] using h1,
    by simpa [getStatistics, statsInit] using h2,
    by simpa [getStatistics, statsInit] using h3,
    by simpa [getStatistics, statsInit] using h4,
    by simpa [getStatistics, statsInit] using h5,
    by simpa [getStatistics, statsInit] using h6,
    by simpa [getStatistics, statsInit] using h7,
    by simpa [getStatistics, statsInit] using h8,
    by simpa [getStatistics, statsInit] using h9,
    by simpa [getStatistics, statsInit] using h10,
    rfl, by decide⟩

end BugTracker
